import Mathlib

/-!
Verification of the nginx New Relic agent core (`nginx-nr-agent.go`).

The agent polls the nginx stub-status endpoint, matches the body against a
fixed regular expression, derives rates and gauges from successive readings
through package-level mutable state, hands the derived batch to an upload
goroutine through a channel with a one-second timeout, and POSTs it to the
New Relic platform API.

The embedding below transcribes the Go source: machine `int64` values are
modelled as unbounded `Int` (all quantities in the claims stay far from the
64-bit boundary), Go integer division (truncation toward zero) is written
`Int.tdiv`, and the regular-expression match is transcribed as a direct
parser with the same leftmost-first greedy-with-backtracking semantics on
the one position where backtracking can occur.
-/

set_option maxRecDepth 8000

namespace NginxAgent

/-- `PollSeconds = 60`: the poll cadence in seconds. -/
def PollSeconds : Int := 60

/-- `ErrorBackoffTime = 10 * time.Second`, expressed in seconds. -/
def ErrorBackoffSeconds : Int := 10

/-- The publish hand-off timeout `time.After(1 * time.Second)`, in seconds. -/
def PublishTimeoutSeconds : Int := 1

/-- The `\d` class of the Go regexp. -/
def isDigitCh (c : Char) : Bool := '0' ≤ c && c ≤ '9'

/-- The `\s` class of the Go regexp: `[\t\n\f\r ]`. -/
def isSpaceCh (c : Char) : Bool :=
  c = ' ' || c = '\t' || c = '\n' || c = '\x0c' || c = '\r'

/-- The `[\w ]` class of the Go regexp: word characters or a space. -/
def isWordSpaceCh (c : Char) : Bool :=
  c = ' ' || c = '_' || ('0' ≤ c && c ≤ '9') || ('A' ≤ c && c ≤ 'Z') || ('a' ≤ c && c ≤ 'z')

/-- The numeric value `strconv.Atoi` produces for a captured digit run.  The
Go code discards the error, and on 64-bit overflow `Atoi` returns the
clamped maximum, so the value observed is `min n (2^63 - 1)`. -/
def atoiClamped (ds : List Char) : Int :=
  Int.ofNat (min (ds.foldl (fun acc c => 10 * acc + (c.toNat - '0'.toNat)) 0) (2 ^ 63 - 1))

/-- Match a literal piece of the pattern against the front of the text. -/
def stripLit : List Char → List Char → Option (List Char)
  | [], s => some s
  | _ :: _, [] => none
  | p :: ps, c :: cs => if c = p then stripLit ps cs else none

/-- A `\s+` whose continuation starts with a non-whitespace character, so the
greedy maximal run is forced: at least one whitespace character, consume the
maximal run. -/
def skipSpaces1 (s : List Char) : Option (List Char) :=
  if (s.takeWhile isSpaceCh).isEmpty then none else some (s.dropWhile isSpaceCh)

/-- A capture group `(\d+)` followed by `\s`: the maximal nonempty digit run
is forced; returns its `Atoi` value and the rest of the text. -/
def digits1 (s : List Char) : Option (Int × List Char) :=
  let run := s.takeWhile isDigitCh
  if run.isEmpty then none else some (atoiClamped run, s.dropWhile isDigitCh)

/-- One reading parsed from the status body: the seven named captures of
`ParserRegexp`, as `int64` values. -/
structure MetricReading where
  Connections : Int
  Accepts : Int
  Handled : Int
  Requests : Int
  Reading : Int
  Writing : Int
  Waiting : Int
deriving DecidableEq, Repr

/-- A `\s+(\d+)` piece of the pattern. -/
def wsDigits (s : List Char) : Option (Int × List Char) :=
  match skipSpaces1 s with
  | none => none
  | some t => digits1 t

/-- A `\s+` followed by a literal piece of the pattern. -/
def wsLit (pat : List Char) (s : List Char) : Option (List Char) :=
  match skipSpaces1 s with
  | none => none
  | some t => stripLit pat t

/-- A `Label:\s+(\d+)` piece of the pattern with its leading `\s+`. -/
def wsLabelDigits (pat : List Char) (s : List Char) : Option (Int × List Char) :=
  match wsLit pat s with
  | none => none
  | some t => wsDigits t

/-- The deterministic tail of the pattern after the header newline:
`\s+(\d+)\s+(\d+)\s+(\d+)\s+Reading:\s+(\d+)\s+Writing:\s+(\d+)\s+Waiting:\s+(\d+)`.
Every `\s+` here is followed by a digit or a letter, which whitespace cannot
match, so greedy matching is forced and no backtracking can occur.  The
pattern is not anchored at the end: trailing text is ignored. -/
def parseCounters (s : List Char) : Option (Int × Int × Int × Int × Int × Int) :=
  match wsDigits s with
  | none => none
  | some (accepts, s1) =>
    match wsDigits s1 with
    | none => none
    | some (handled, s2) =>
      match wsDigits s2 with
      | none => none
      | some (requests, s3) =>
        match wsLabelDigits "Reading:".toList s3 with
        | none => none
        | some (reading, s4) =>
          match wsLabelDigits "Writing:".toList s4 with
          | none => none
          | some (writing, s5) =>
            match wsLabelDigits "Waiting:".toList s5 with
            | none => none
            | some (waiting, _) =>
              some (accepts, handled, requests, reading, writing, waiting)

/-- One attempt at the `\s+[\w ]+\n` header segment with exactly `i`
whitespace characters consumed by the `\s+`.  The `[\w ]+` run is forced
maximal (shortening it leaves a `[\w ]` character where `\n` must match). -/
def headerAttempt (t : List Char) (i : Nat) : Option (Int × Int × Int × Int × Int × Int) :=
  if i = 0 then none else
  let u := t.drop i
  let w := u.takeWhile isWordSpaceCh
  if w.isEmpty then none else
  match u.drop w.length with
  | '\n' :: rest => parseCounters rest
  | _ => none

/-- Backtracking over the length of the header `\s+` run, longest split
first, exactly as the leftmost-first engine behaves on the one place in the
pattern where `\s` and `[\w ]` overlap (the space character). -/
def headerSearch (t : List Char) : Nat → Option (Int × Int × Int × Int × Int × Int)
  | 0 => none
  | i + 1 =>
    match headerAttempt t (i + 1) with
    | some r => some r
    | none => headerSearch t i

/-- `ParserRegexp.FindStringSubmatch` on the status body.  The pattern is
anchored with `^` (no multiline flag), so it matches a prefix of the text or
nothing; `none` models the nil slice Go returns when there is no match.
Every capture group is mandatory, so a successful match always carries all
seven fields — there is no partial reading. -/
def ParserRegexpMatch (body : String) : Option MetricReading :=
  match stripLit "Active connections: ".toList body.toList with
  | none => none
  | some t1 =>
    let ds := t1.takeWhile isDigitCh
    if ds.isEmpty then none else
    let t2 := t1.dropWhile isDigitCh
    match headerSearch t2 (t2.takeWhile isSpaceCh).length with
    | none => none
    | some (accepts, handled, requests, reading, writing, waiting) =>
      some ⟨atoiClamped ds, accepts, handled, requests, reading, writing, waiting⟩

/-- The well-formed stub-status body used by the repository's own test. -/
def sampleBody : String :=
  "Active connections: 2\nserver accepts handled requests\n 31 30 42\nReading: 0 Writing: 10 Waiting: 1"

/-- The reading the repository's test expects for `sampleBody`. -/
def sampleReading : MetricReading := ⟨2, 31, 30, 42, 0, 10, 1⟩

/-- The parser reproduces the repository's own test: the well-formed sample
body yields exactly the seven expected field values. -/
theorem parserRegexpMatch_sampleBody : ParserRegexpMatch sampleBody = some sampleReading := by
  decide

/-- The package-level mutable state of the agent: the seven `int64` globals
`accepted, sumAccepted, dropped, total, active, idle, current`.  Go
zero-initialises all of them. -/
structure AgentState where
  accepted : Int
  sumAccepted : Int
  dropped : Int
  total : Int
  active : Int
  idle : Int
  current : Int
deriving DecidableEq, Repr

/-- The Go zero value of every global at process start. -/
def initialState : AgentState := ⟨0, 0, 0, 0, 0, 0, 0⟩

/-- `processOne`: transform a reading into the metric values and update the
globals.  The rate is only recomputed when `sumAccepted` is nonzero (the
startup guard); otherwise `accepted` keeps its previous value.  `Int.tdiv` is
Go `int64` division, truncation toward zero. -/
def processOne (s : AgentState) (m : MetricReading) : AgentState :=
  { accepted :=
      if s.sumAccepted ≠ 0 then Int.tdiv (m.Accepts - s.sumAccepted) PollSeconds
      else s.accepted
    sumAccepted := m.Accepts
    dropped := m.Accepts - m.Handled - s.dropped
    active := m.Connections
    idle := m.Waiting
    total := m.Connections + m.Waiting
    current := m.Reading + m.Writing }

/-- The batch reported to New Relic (`NrMetric`). -/
structure NrMetric where
  Accepted : Int
  Dropped : Int
  Total : Int
  Active : Int
  Idle : Int
  Current : Int
  SummaryIdle : Int
  SummaryActive : Int
deriving DecidableEq, Repr

/-- The batch `notifyNewRelic` builds from the globals. -/
def batchOf (s : AgentState) : NrMetric :=
  ⟨s.accepted, s.dropped, s.total, s.active, s.idle, s.current, s.idle, s.active⟩

/-- Outcome of the `select` in `notifyNewRelic`: either the channel send is
taken by a ready consumer, or the one-second `time.After` fires and the
batch is dropped with a warning log. -/
inductive PublishResult
  | delivered (batch : NrMetric)
  | droppedWithWarning
deriving DecidableEq, Repr

/-- `notifyNewRelic`, with the `select` nondeterminism exposed as a boolean
environment input: `consumerReady` is true when a receiver takes the send
within the one-second timeout. -/
def notifyNewRelic (consumerReady : Bool) (s : AgentState) : PublishResult :=
  if consumerReady then .delivered (batchOf s) else .droppedWithWarning

/-- An HTTP response as the agent sees it: status code and body text. -/
structure HttpResponse where
  StatusCode : Nat
  Body : String
deriving DecidableEq, Repr

/-- What `GetStats` does with a fetch: return an error (transport or body
read failure), panic, or return a reading. -/
inductive FetchOutcome
  | fetchFailed (err : String)
  | panicked
  | reading (m : MetricReading)
deriving DecidableEq, Repr

/-- `GetStats`: a transport error is returned to the caller; otherwise the
body is matched against `ParserRegexp` and the match slice is indexed
unconditionally, so a nil match (no regexp match) is a runtime panic
(index out of range), and the response status code is never inspected. -/
def GetStats (resp : Except String HttpResponse) : FetchOutcome :=
  match resp with
  | .error e => .fetchFailed e
  | .ok r =>
    match ParserRegexpMatch r.Body with
    | none => .panicked
    | some m => .reading m

/-- The error `uploadOne` returns: a transport failure, or a non-2xx
response carried with its status code and body. -/
inductive UploadErr
  | transport (err : String)
  | badStatus (code : Nat) (body : String)
deriving DecidableEq, Repr

/-- `uploadOne` over an abstract transport result.  JSON encoding and
request construction cannot fail for the fixed envelope shape, so the
fallible input is the POST result.  A status outside 200..299 is returned
as an error carrying the code and the response body; anything else is
success. -/
def uploadOne (resp : Except String HttpResponse) : Except UploadErr Unit :=
  match resp with
  | .error e => .error (.transport e)
  | .ok r =>
    if r.StatusCode > 299 ∨ r.StatusCode < 200 then
      .error (.badStatus r.StatusCode r.Body)
    else
      .ok ()

/-- The `processUploads` consumer loop over the sequence of transport
results its channel reads lead to: each batch is uploaded exactly once; an
error is logged (it is the `.error` element of the output) and the loop
continues with the next batch; nothing is retried. -/
def processUploads : List (Except String HttpResponse) → List (Except UploadErr Unit)
  | [] => []
  | r :: rest => uploadOne r :: processUploads rest

/-- What one loop iteration of `processStats` leaves behind: the globals
after the iteration, whether `time.Sleep(ErrorBackoffTime)` ran, the batch
handed to the upload channel (if any), and whether the dropped-batch
warning was logged. -/
structure StepOutcome where
  state : AgentState
  sleptBackoff : Bool
  published : Option NrMetric
  warnedDrop : Bool
deriving DecidableEq, Repr

/-- One `time.After(PollInterval)` iteration of the `processStats` loop:
on a fetch error, log, sleep the backoff and `continue` (the globals are
untouched and nothing is published); a parse panic propagates (`none`);
otherwise `processOne` runs and the batch goes to `notifyNewRelic`. -/
def processStatsStep (resp : Except String HttpResponse) (consumerReady : Bool)
    (s : AgentState) : Option StepOutcome :=
  match GetStats resp with
  | .fetchFailed _ => some ⟨s, true, none, false⟩
  | .panicked => none
  | .reading m =>
    match notifyNewRelic consumerReady (processOne s m) with
    | .delivered batch => some ⟨processOne s m, false, some batch, false⟩
    | .droppedWithWarning => some ⟨processOne s m, false, none, true⟩

/-- A reading whose accept and handled counters are `a` and whose gauges are
zero; used for concrete derivation scenarios. -/
def readingWithAccepts (a : Int) : MetricReading := ⟨0, a, a, 0, 0, 0, 0⟩

/-- The globals after one reading with accept counter 100 from startup. -/
def stateAfterHundred : AgentState := processOne initialState (readingWithAccepts 100)

/-- C1: the claim's error contract does not hold in the code.  A response
body that does not match the status pattern — arbitrary text, or a
truncated status block — produces no reading, but it also produces no parse
error: the nil match slice is indexed unconditionally and `GetStats`
panics. -/
theorem getStats_malformed_body_panics :
    ParserRegexpMatch "<html>502 Bad Gateway</html>" = none ∧
    GetStats (.ok ⟨200, "<html>502 Bad Gateway</html>"⟩) = .panicked ∧
    ParserRegexpMatch "Active connections: 2\nserver accepts handled requests\n 31 30" = none ∧
    GetStats (.ok ⟨200, "Active connections: 2\nserver accepts handled requests\n 31 30"⟩)
      = .panicked := by
  decide

/-- C2: the code never inspects the response status code.  A 500 response
whose body is the well-formed status text yields a full reading, and the
scheduler step goes on to derive and publish (no backoff is taken), contrary
to the claim that every non-200 response is a fetch failure. -/
theorem getStats_ignores_non200_status :
    GetStats (.ok ⟨500, sampleBody⟩) = .reading sampleReading ∧
    processStatsStep (.ok ⟨500, sampleBody⟩) true initialState =
      some ⟨processOne initialState sampleReading, false,
            some (batchOf (processOne initialState sampleReading)), false⟩ := by
  decide

/-- C3 counterexample: a reading whose accept counter is zero leaves the
globals exactly as they were at startup, so the observation leaves no trace
and the next call is treated as the first observation: with accepts 120 it
reports rate 0, where a recorded prior observation would have given
`(120 - 0) / 60 = 2`. -/
theorem processOne_zero_accepts_loses_observation :
    processOne initialState (readingWithAccepts 0) = initialState ∧
    (processOne (processOne initialState (readingWithAccepts 0))
      (readingWithAccepts 120)).accepted = 0 ∧
    Int.tdiv ((readingWithAccepts 120).Accepts - 0) PollSeconds = 2 := by
  decide

/-- C3 (amended): the state records an observation only through
`sumAccepted := reading.accepts`, and zero doubles as the unset sentinel:
after a call whose reading has `accepts = 0`, `sumAccepted` is 0 again, so
the next call is treated as the first observation and leaves the reported
rate unchanged instead of computing one. -/
theorem processOne_zero_sentinel (s : AgentState) (m mNext : MetricReading)
    (h : m.Accepts = 0) :
    (processOne s m).sumAccepted = 0 ∧
    (processOne (processOne s m) mNext).accepted = (processOne s m).accepted := by
  refine ⟨h, ?_⟩
  simp [processOne, h]

/-- C3 witness: the amended statement at the concrete zero reading followed
by a reading with accepts 120. -/
theorem processOne_zero_sentinel_witness :
    (processOne initialState (readingWithAccepts 0)).sumAccepted = 0 ∧
    (processOne (processOne initialState (readingWithAccepts 0))
        (readingWithAccepts 120)).accepted =
      (processOne initialState (readingWithAccepts 0)).accepted :=
  processOne_zero_sentinel initialState (readingWithAccepts 0) (readingWithAccepts 120) rfl

/-- C4 counterexample: a reachable run (accepts 100, 160, 0, 30 from
startup) in which the fourth call has the sentinel unset yet reports the
stale rate `-2` of the previous interval, not the claimed 0. -/
theorem accepted_rate_stale_after_sentinel_reset :
    (processOne (processOne (processOne initialState (readingWithAccepts 100))
        (readingWithAccepts 160)) (readingWithAccepts 0)).sumAccepted = 0 ∧
    (processOne (processOne (processOne (processOne initialState (readingWithAccepts 100))
        (readingWithAccepts 160)) (readingWithAccepts 0))
        (readingWithAccepts 30)).accepted = -2 := by
  decide

/-- C4 (amended): `processOne` reports
`acceptedRate = (reading.accepts - lastAcceptsTotal) / 60` (truncating
division) when `lastAcceptsTotal` is nonzero and otherwise leaves the
previously reported rate unchanged — 0 on the first-ever call because the
rate global starts at 0; `lastAcceptsTotal` is then unconditionally set to
`reading.accepts`; readings 100 then 160 at the 60-second interval give
rate 1 on the second call. -/
theorem processOne_accepted_rate (s : AgentState) (m mFirst : MetricReading) :
    (processOne s m).accepted =
      (if s.sumAccepted ≠ 0 then Int.tdiv (m.Accepts - s.sumAccepted) PollSeconds
       else s.accepted) ∧
    (processOne s m).sumAccepted = m.Accepts ∧
    (processOne initialState mFirst).accepted = 0 ∧
    (processOne (processOne initialState (readingWithAccepts 100))
      (readingWithAccepts 160)).accepted = 1 :=
  ⟨rfl, rfl, by simp [processOne, initialState], by decide⟩

/-- C5: `processOne` stores into the dropped accumulator exactly
`reading.accepts - reading.handled - previousDropped`, the source's
arithmetic reproduced without correction. -/
theorem processOne_dropped_arith (s : AgentState) (m : MetricReading) :
    (processOne s m).dropped = m.Accepts - m.Handled - s.dropped := rfl

/-- C6: the gauges of the derived snapshot: active is the reading's
connections, idle its waiting, total is structurally active plus idle, and
current is reading plus writing. -/
theorem processOne_gauges (s : AgentState) (m : MetricReading) :
    (processOne s m).active = m.Connections ∧
    (processOne s m).idle = m.Waiting ∧
    (processOne s m).total = (processOne s m).active + (processOne s m).idle ∧
    (processOne s m).current = m.Reading + m.Writing :=
  ⟨rfl, rfl, rfl, rfl⟩

/-- C7: an upload succeeds exactly when the response status is in 200..299;
otherwise the error carries the status code and body (or the transport
error), and the consumer loop processes every batch exactly once in order —
an upload failure neither stops the loop nor causes a retry. -/
theorem uploadOne_success_iff_2xx (r : HttpResponse) (e : String)
    (rest : List (Except String HttpResponse)) :
    (uploadOne (.ok r) = .ok () ↔ 200 ≤ r.StatusCode ∧ r.StatusCode ≤ 299) ∧
    (uploadOne (.ok r) = .ok () ∨
      uploadOne (.ok r) = .error (.badStatus r.StatusCode r.Body)) ∧
    uploadOne (.error e) = .error (.transport e) ∧
    processUploads (.ok r :: rest) = uploadOne (.ok r) :: processUploads rest ∧
    processUploads (.error e :: rest) = uploadOne (.error e) :: processUploads rest := by
  have hred : uploadOne (.ok r)
      = if r.StatusCode > 299 ∨ r.StatusCode < 200 then
          .error (.badStatus r.StatusCode r.Body)
        else .ok () := rfl
  refine ⟨?_, ?_, rfl, rfl, rfl⟩
  · rw [hred]
    by_cases h : r.StatusCode > 299 ∨ r.StatusCode < 200
    · rw [if_pos h]
      constructor
      · intro hc; simp at hc
      · intro hc; exfalso; omega
    · rw [if_neg h]
      push_neg at h
      exact ⟨fun _ => by omega, fun _ => rfl⟩
  · rw [hred]
    by_cases h : r.StatusCode > 299 ∨ r.StatusCode < 200
    · rw [if_pos h]; exact Or.inr rfl
    · rw [if_neg h]; exact Or.inl rfl

/-- C8: when the fetch yields a reading, the scheduler step completes
whether or not the consumer is ready within the bounded wait: a ready
consumer receives the derived batch; otherwise the batch is dropped and the
warning is logged, and the loop still returns to its next tick. -/
theorem notifyNewRelic_bounded_handoff (resp : Except String HttpResponse)
    (s : AgentState) (m : MetricReading) (h : GetStats resp = .reading m) :
    processStatsStep resp true s =
      some ⟨processOne s m, false, some (batchOf (processOne s m)), false⟩ ∧
    processStatsStep resp false s = some ⟨processOne s m, false, none, true⟩ := by
  unfold processStatsStep
  rw [h]
  exact ⟨rfl, rfl⟩

/-- C8 witness: the stalled-consumer case at the concrete sample fetch from
the initial state. -/
theorem notifyNewRelic_bounded_handoff_witness :
    processStatsStep (.ok ⟨200, sampleBody⟩) false initialState =
      some ⟨processOne initialState sampleReading, false, none, true⟩ :=
  (notifyNewRelic_bounded_handoff (.ok ⟨200, sampleBody⟩) initialState sampleReading
    (by decide)).2

/-- C9: a failed fetch leaves every global untouched, publishes nothing
(`processOne` never runs), and sleeps the 10-second backoff, which is
strictly shorter than the 60-second poll interval. -/
theorem fetch_failure_preserves_state (e : String) (ready : Bool) (s : AgentState) :
    processStatsStep (.error e) ready s = some ⟨s, true, none, false⟩ ∧
    ErrorBackoffSeconds < PollSeconds :=
  ⟨rfl, by decide⟩

/-- Truncating division of a value in `[0, 60)` by 60 is zero. -/
theorem tdiv_sixty_eq_zero (d : Int) (h0 : 0 ≤ d) (h : d < 60) : Int.tdiv d 60 = 0 := by
  obtain ⟨n, rfl⟩ := Int.eq_ofNat_of_zero_le h0
  have hn : n < 60 := by exact_mod_cast h
  show Int.ofNat (n / 60) = 0
  simp [Nat.div_eq_of_lt hn]

/-- C10: with a recorded nonzero prior observation, any positive accept
delta smaller than 60 truncates to a reported rate of exactly 0. -/
theorem small_delta_reports_zero_rate (s : AgentState) (m : MetricReading)
    (h1 : s.sumAccepted ≠ 0) (h2 : 0 < m.Accepts - s.sumAccepted)
    (h3 : m.Accepts - s.sumAccepted < 60) :
    (processOne s m).accepted = 0 := by
  have hacc : (processOne s m).accepted
      = Int.tdiv (m.Accepts - s.sumAccepted) PollSeconds := by
    simp [processOne, h1]
  rw [hacc]
  exact tdiv_sixty_eq_zero _ (le_of_lt h2) h3

/-- C10 witness: after an observation at accepts 100, a reading with
accepts 130 (delta 30 over 60 seconds) reports rate 0. -/
theorem small_delta_reports_zero_rate_witness :
    (processOne stateAfterHundred (readingWithAccepts 130)).accepted = 0 :=
  small_delta_reports_zero_rate stateAfterHundred (readingWithAccepts 130)
    (by decide) (by decide) (by decide)

end NginxAgent
